import Mathlib

/-!
Shallow embedding of the bundling-orchestration core of the
aws-lambda-nodejs-webpack CDK construct (src/NodejsFunction.ts, with the
earlier webpack revision appended after it in the same file, and the
rollup-based variant src/function.ts), together with theorems checking the
specification's claims about it.

The repository has three bundling variants:
  * the current webpack implementation (NodejsFunction.ts, first revision);
  * the earlier webpack implementation (NodejsFunction.ts, second revision),
    which differs in the subprocess working directory and config cleanup;
  * the rollup implementation (function.ts), the direct-bundling mode.

Host interactions (filesystem existence checks, require.resolve, find-up,
process.versions) are passed in as explicit function/string parameters so
every definition stays executable.
-/

namespace AwsLambdaNodejsWebpack

/-! ## Runtimes (modelled from the aws-lambda collaborator's documented values) -/

inductive RuntimeFamily where
  | nodejs
  | python
  | otherFamily
deriving DecidableEq

/-- A lambda runtime as the construct observes it: an identifier string and a
family tag. `lambda.Runtime.NODEJS_12_X.name` is "nodejs12.x" and
`lambda.Runtime.NODEJS_10_X.name` is "nodejs10.x". -/
structure Runtime where
  name : String
  family : RuntimeFamily
deriving DecidableEq

def NODEJS_12_X : Runtime := ⟨"nodejs12.x", RuntimeFamily.nodejs⟩

def NODEJS_10_X : Runtime := ⟨"nodejs10.x", RuntimeFamily.nodejs⟩

/-! ## JavaScript primitives used by the source

`parseInt(s, 10)` parses an optional sign followed by leading decimal
digits, returning NaN (modelled as `none`) when no digit is present.
`split(sep)` with a non-empty string separator scans left to right,
cutting at each leftmost separator occurrence; it is implemented here
structurally over character lists (`jsSplit`). A NaN comparison is false. -/

/-- If `sep` is a leading part of `l`, return what follows it. -/
def dropPrefixChars : List Char → List Char → Option (List Char)
  | [], l => some l
  | _ :: _, [] => none
  | s :: ss, c :: cs => if s = c then dropPrefixChars ss cs else none

/-- Structural worker for `jsSplit`; `fuel` bounds the number of consumed
characters, so `fuel = l.length` is always enough for a non-empty separator. -/
def jsSplitAux (sep : List Char) : Nat → List Char → List (List Char)
  | _, [] => [[]]
  | 0, l => [l]
  | Nat.succ n, c :: cs =>
    match dropPrefixChars sep (c :: cs) with
    | some rest => [] :: jsSplitAux sep n rest
    | none =>
      match jsSplitAux sep n cs with
      | [] => [[c]]
      | seg :: segs => (c :: seg) :: segs

/-- JavaScript `s.split(sep)` for a non-empty string separator. -/
def jsSplit (s sep : String) : List String :=
  (jsSplitAux sep.data s.data.length s.data).map (fun cs => ⟨cs⟩)

def digitsToNat (ds : List Char) : Option Nat :=
  if ds = [] then none
  else some (ds.foldl (fun a c => a * 10 + (c.toNat - 48)) 0)

def jsParseInt (s : String) : Option Int :=
  match s.data with
  | '-' :: rest => (digitsToNat (rest.takeWhile Char.isDigit)).map (fun n => -(n : Int))
  | '+' :: rest => (digitsToNat (rest.takeWhile Char.isDigit)).map (fun n => (n : Int))
  | cs => (digitsToNat (cs.takeWhile Char.isDigit)).map (fun n => (n : Int))

/-- JavaScript `x >= y` where `x` may be NaN (`none`): NaN comparisons are false. -/
def jsGe (x : Option Int) (y : Int) : Bool :=
  match x with
  | none => false
  | some v => v ≥ y

/-! ## nodeMajorVersion (NodejsFunction.ts lines 310-312)

`parseInt(process.versions.node.split(".")[0], 10)`, with the host version
string passed in explicitly. -/

def nodeMajorVersion (hostNodeVersion : String) : Option Int :=
  jsParseInt ((jsSplit hostNodeVersion ".").headD "")

/-- `props.runtime ?? (nodeMajorVersion() >= 12 ? NODEJS_12_X : NODEJS_10_X)`
(NodejsFunction.ts lines 86-91). -/
def defaultRunTime (hostNodeVersion : String) : Runtime :=
  if jsGe (nodeMajorVersion hostNodeVersion) 12 then NODEJS_12_X else NODEJS_10_X

def selectRuntime (propsRuntime : Option Runtime) (hostNodeVersion : String) : Runtime :=
  propsRuntime.getD (defaultRunTime hostNodeVersion)

/-! ## Path escaping (NodejsFunction.ts lines 129-131)

`path.replace(/\\/g, "\\\\")`: every backslash becomes two backslashes. -/

def escapeList : List Char → List Char
  | [] => []
  | c :: rest => (if c = '\\' then ['\\', '\\'] else [c]) ++ escapeList rest

def escapePathForNodeJs (p : String) : String := ⟨escapeList p.data⟩

/-- Decoder for the escape sequences of the configuration grammar (JavaScript
string-literal syntax) restricted to the sequences that can occur here:
a backslash escapes the following character, with the usual letter escapes. -/
def jsUnescapeChar (c : Char) : Char :=
  if c = 'n' then '\n' else if c = 't' then '\t' else if c = 'r' then '\r' else c

def jsUnescapeList : List Char → List Char
  | [] => []
  | [c] => [c]
  | c1 :: c2 :: rest =>
    if c1 = '\\' then jsUnescapeChar c2 :: jsUnescapeList rest
    else c1 :: jsUnescapeList (c2 :: rest)

def jsUnescape (s : String) : String := ⟨jsUnescapeList s.data⟩

/-! ## Entry resolution (NodejsFunction.ts lines 74-84)

The regex test `/\.(js|ts)$/`, `path.resolve`, and the existence check.
`path.resolve` is modelled with POSIX separators: an absolute entry is
normalized as is, a relative one against the (absolute) working directory. -/

def hasSourceExtension (entry : String) : Bool :=
  ".js".data.isSuffixOf entry.data || ".ts".data.isSuffixOf entry.data

def normalizeSegs (segs : List String) : List String :=
  segs.foldl
    (fun acc seg =>
      if seg = "." then acc
      else if seg = ".." then acc.dropLast
      else acc ++ [seg])
    []

/-- A POSIX path is absolute when it starts with a separator. -/
def isAbsolutePath (p : String) : Bool :=
  match p.data with
  | '/' :: _ => true
  | _ => false

def pathResolve (cwd entry : String) : String :=
  "/" ++ String.intercalate "/" (normalizeSegs
    ((jsSplit (if isAbsolutePath entry then entry else cwd ++ "/" ++ entry) "/").filter
      (fun s => s ≠ "")))

inductive EntryError where
  | invalidExtension
  | entryNotFound (path : String)
deriving DecidableEq

/-- The entry-validation prefix of the constructor: extension test, then
`path.resolve`, then `fs.existsSync` (passed in as `fsExists`). -/
def resolveEntry (entry cwd : String) (fsExists : String → Bool) :
    Except EntryError String :=
  if !hasSourceExtension entry then Except.error EntryError.invalidExtension
  else
    let entryFullPath := pathResolve cwd entry
    if !fsExists entryFullPath then Except.error (EntryError.entryNotFound entryFullPath)
    else Except.ok entryFullPath

/-! ## Module location (NodejsFunction.ts lines 316-333)

`require.resolve(moduleName, \x7b paths: [__dirname] \x7d)` is Strategy A,
`findUp.sync(moduleName, \x7b type: "directory", cwd: pluginsPath \x7d)` is
Strategy B; both are passed in as functions. -/

def moduleNotFoundMessage (moduleName : String) : String :=
  "Can\x27t find module named " ++ moduleName ++ " via require.resolve or find-up"

def findModulePath (requireResolve : String → Option String)
    (findUpSync : String → String → Option String)
    (moduleName pluginsPath : String) : Except String String :=
  match requireResolve moduleName with
  | some p => Except.ok p
  | none =>
    match findUpSync moduleName pluginsPath with
    | some modulePath => Except.ok modulePath
    | none => Except.error (moduleNotFoundMessage moduleName)

/-! ## Webpack configuration synthesis (NodejsFunction.ts lines 133-264)

The configuration is a template literal; it is embedded here as the exact
concatenation of its literal chunks and interpolations. Literal braces are
written with hexadecimal escapes, apostrophes likewise. The helper-module
paths (resolved through findModulePath at lines 107-124 and line 201) are
carried in a record of strings. -/

structure PluginsPaths where
  webpack : String
  babelLoader : String
  babelPresetEnv : String
  babelPluginTransformRuntime : String
  babelPluginSourceMapSupport : String
  noop2 : String
  terserWebpackPlugin : String
  tsLoader : String
deriving DecidableEq

/-- `path.join` over POSIX separators, as used for the cache directories. -/
def pathJoin (parts : List String) : String := String.intercalate "/" parts

/-- The interpolation `runtime.name.split("nodejs")[1].split(".")[0]`
(lines 177-179). Indexing `[1]` past the end of the split yields undefined in
JavaScript and the subsequent `.split` throws, aborting the constructor:
that abort is modelled as `none`. `[0]` of a split is always defined. -/
def runtimeTargetSegment (runtimeName : String) : Option String :=
  match (jsSplit runtimeName "nodejs").get? 1 with
  | none => none
  | some seg => (jsSplit seg ".").get? 0

/-- The inner template of the `modulesToIgnore` interpolation
(lines 255-262), with the pattern and the escaped noop2 path spliced in. -/
def moduleReplacementRule (pattern noopEscaped : String) : String :=
  "\n      plugins: [\n        new NormalModuleReplacementPlugin(\n          /"
    ++ pattern
    ++ ("/,\n          \""
      ++ (noopEscaped ++ "\",\n        ),\n      ]\n      "))

/-- The interpolation `(props.modulesToIgnore && innerTemplate) || ""`
(lines 254-263): an absent list is falsy and yields the empty string; any
present array (an empty one included) is truthy and yields the rule, its
pattern being the alternation join of the patterns, path-escaped. -/
def modulesToIgnoreSection (modulesToIgnore : Option (List String)) (noop2Path : String) : String :=
  match modulesToIgnore with
  | none => ""
  | some mods =>
    moduleReplacementRule (escapePathForNodeJs (String.intercalate "|" mods))
      (escapePathForNodeJs noop2Path)

/-- Everything of the generated configuration text before the
`modulesToIgnore` interpolation, given the already-extracted runtime target
segment. Parameters: resolved entry path, `process.cwd()`, `__filename`,
the fresh output directory, the helper-module paths. -/
def webpackConfigMain (entryFullPath processCwd filename outputDir : String)
    (pp : PluginsPaths) (target : String) : String :=
  "\n    const \x7b builtinModules \x7d = require(\"module\");\n"
    ++ "    const \x7b NormalModuleReplacementPlugin \x7d = require(\""
    ++ escapePathForNodeJs pp.webpack ++ "\");\n"
    ++ "    const TerserPlugin = require(\""
    ++ escapePathForNodeJs pp.terserWebpackPlugin ++ "\");\n"
    ++ "\n"
    ++ "    module.exports = \x7b\n"
    ++ "      name: \"aws-lambda-nodejs-webpack\",\n"
    ++ "      mode: \"production\",\n"
    ++ "      entry: \"" ++ escapePathForNodeJs entryFullPath ++ "\",\n"
    ++ "      target: \"node\",\n"
    ++ "      resolve: \x7b\n"
    ++ "        // next line allows resolving not found modules to local versions (require(\"lib/log\"))\n"
    ++ "        modules: [\"node_modules\", \"" ++ escapePathForNodeJs processCwd ++ "\"],\n"
    ++ "        extensions: [ \".ts\", \".js\" ],\n"
    ++ "      \x7d,\n"
    ++ "      context: \"" ++ escapePathForNodeJs processCwd ++ "\",\n"
    ++ "      devtool: \"source-map\",\n"
    ++ "      module: \x7b\n"
    ++ "        rules: [\n"
    ++ "          \x7b\n"
    ++ "            test: /\\.js$/,\n"
    ++ "            exclude: /node_modules/,\n"
    ++ "            use: \x7b\n"
    ++ "              loader: \"" ++ escapePathForNodeJs pp.babelLoader ++ "\",\n"
    ++ "              options: \x7b\n"
    ++ "                cwd: \"" ++ escapePathForNodeJs processCwd ++ "\",\n"
    ++ "                cacheDirectory: \""
    ++ escapePathForNodeJs
        (pathJoin [processCwd, "node_modules", ".cache", "aws-lambda-nodejs-webpack", "babel"])
    ++ "\",\n"
    ++ "                presets: [\n"
    ++ "                  [\n"
    ++ "                    \"" ++ escapePathForNodeJs pp.babelPresetEnv ++ "\",\n"
    ++ "                    \x7b\n"
    ++ "                      \"targets\": \x7b\n"
    ++ "                        \"node\": \"" ++ target ++ "\"\n"
    ++ "                      \x7d,\n"
    ++ "                      loose: true,\n"
    ++ "                      bugfixes: true,\n"
    ++ "                    \x7d,\n"
    ++ "                  ]\n"
    ++ "                ],\n"
    ++ "                plugins: [\n"
    ++ "                  \"" ++ escapePathForNodeJs pp.babelPluginTransformRuntime ++ "\",\n"
    ++ "                  \"" ++ escapePathForNodeJs pp.babelPluginSourceMapSupport ++ "\"\n"
    ++ "                ]\n"
    ++ "              \x7d\n"
    ++ "            \x7d\n"
    ++ "          \x7d,\n"
    ++ "          \x7b\n"
    ++ "            test: /\\.ts$/,\n"
    ++ "            use: \x7b\n"
    ++ "              loader: \"" ++ escapePathForNodeJs pp.tsLoader ++ "\",\n"
    ++ "              options: \x7b\n"
    ++ "                context: \"" ++ escapePathForNodeJs processCwd ++ "\",\n"
    ++ "                configFile: \""
    ++ escapePathForNodeJs (pathJoin [processCwd, "tsconfig.json"]) ++ "\",\n"
    ++ "                transpileOnly: true\n"
    ++ "              \x7d\n"
    ++ "            \x7d,\n"
    ++ "            exclude: /node_modules/,\n"
    ++ "          \x7d,\n"
    ++ "        ]\n"
    ++ "      \x7d,\n"
    ++ "      cache: \x7b\n"
    ++ "        type: \"filesystem\",\n"
    ++ "        buildDependencies: \x7b\n"
    ++ "          // force the config file to be this current file, since it won\x27t change over builds\n"
    ++ "          // while the temporary webpack config file used would change, thus disabling webpack cache\n"
    ++ "          config: [\"" ++ escapePathForNodeJs filename ++ "\"]\n"
    ++ "        \x7d,\n"
    ++ "        cacheDirectory: \""
    ++ escapePathForNodeJs
        (pathJoin [processCwd, "node_modules", ".cache", "aws-lambda-nodejs-webpack", "webpack"])
    ++ "\"\n"
    ++ "      \x7d,\n"
    ++ "      optimization: \x7b\n"
    ++ "        splitChunks: \x7b\n"
    ++ "          cacheGroups: \x7b\n"
    ++ "            vendor: \x7b\n"
    ++ "              chunks: \"all\",\n"
    ++ "              filename: \"vendor.js\", // put all node_modules into vendor.js\n"
    ++ "              name: \"vendor\",\n"
    ++ "              test: /node_modules/,\n"
    ++ "            \x7d,\n"
    ++ "          \x7d,\n"
    ++ "        \x7d,\n"
    ++ "        minimize: true,\n"
    ++ "        minimizer: [new TerserPlugin(\x7b\n"
    ++ "          include: \"vendor.js\" // only minify vendor.js\n"
    ++ "        \x7d)],\n"
    ++ "      \x7d,\n"
    ++ "      externals: [...builtinModules, \"aws-sdk\"],\n"
    ++ "      output: \x7b\n"
    ++ "        filename: \"[name].js\",\n"
    ++ "        path: \"" ++ escapePathForNodeJs outputDir ++ "\",\n"
    ++ "        libraryTarget: \"commonjs2\",\n"
    ++ "      \x7d,\n"
    ++ "      "

/-- The literal tail that follows the `modulesToIgnore` interpolation. -/
def webpackConfigClose : String := "\n    \x7d;"

/-- The full generated configuration text for a given runtime target segment. -/
def webpackConfigurationText (entryFullPath processCwd filename outputDir : String)
    (pp : PluginsPaths) (target : String) (modulesToIgnore : Option (List String)) : String :=
  webpackConfigMain entryFullPath processCwd filename outputDir pp target
    ++ (modulesToIgnoreSection modulesToIgnore pp.noop2 ++ webpackConfigClose)

/-- Configuration synthesis as the constructor performs it: the runtime
target segment is extracted from the runtime name (aborting the constructor
when the name has no "nodejs" occurrence, modelled as `none`), and the full
template is evaluated. -/
def webpackConfiguration (entryFullPath processCwd filename outputDir : String)
    (pp : PluginsPaths) (runtimeName : String) (modulesToIgnore : Option (List String)) :
    Option String :=
  match runtimeTargetSegment runtimeName with
  | none => none
  | some target =>
    some (webpackConfigurationText entryFullPath processCwd filename outputDir pp target
      modulesToIgnore)

/-! ## Bundler subprocess invocation (NodejsFunction.ts lines 269-277 and 512-514)

`spawn.sync` / `spawnSync` calls are modelled by the argument tuple they are
given; the working directory option is the part the claims are about. -/

structure SpawnCall where
  bin : String
  args : List String
  cwd : String
deriving DecidableEq

/-- Current webpack revision, lines 269-277: the working directory is forced
to the fresh output directory. -/
def webpackSpawnCall (webpackBinPath webpackConfigPath outputDir : String) : SpawnCall :=
  { bin := webpackBinPath
    args := ["--config", webpackConfigPath]
    cwd := outputDir }

/-- Earlier webpack revision, lines 512-514: the working directory is the
calling process's current directory. -/
def legacyWebpackSpawnCall (webpackBinPath webpackConfigPath processCwd : String) : SpawnCall :=
  { bin := webpackBinPath
    args := ["--config", webpackConfigPath]
    cwd := processCwd }

/-! ## Outcome interpretation (NodejsFunction.ts lines 280-299)

On `webpack.status !== 0` the constructor prints the status, the spawn
error, every captured output chunk and the configuration text, then calls
`process.exit(1)`. Otherwise it reaches the `super` call that builds the
deployment descriptor. -/

structure SpawnResult where
  status : Option Int
  output : List String
  error : Option String
deriving DecidableEq

/-- `console.error` rendering of the spawn status inside the template
literal: `null` prints as "null". -/
def statusText (status : Option Int) : String :=
  match status with
  | none => "null"
  | some n => toString n

/-- `console.error` rendering of `webpack.error`: undefined prints as
"undefined". -/
def spawnErrorText (error : Option String) : String :=
  match error with
  | none => "undefined"
  | some e => e

inductive BuildOutcome where
  | failure (diagnostics : List String) (processExitCode : Nat)
  | success (outputDir : String) (handlerRef : String)
deriving DecidableEq

/-- Lines 280-299: non-zero (or null) status emits the diagnostics in order
and exits the process with code 1; zero status reaches the descriptor
construction with the output directory and handler reference. -/
def interpretWebpackOutcome (res : SpawnResult) (configText outputDir handlerRef : String) :
    BuildOutcome :=
  if res.status ≠ some 0 then
    BuildOutcome.failure
      (("webpack had an error when bundling. Return status was " ++ statusText res.status)
        :: spawnErrorText res.error
        :: (res.output ++ ["webpack configuration was:", configText]))
      1
  else
    BuildOutcome.success outputDir handlerRef

/-! ## Constructor properties and the deployment descriptor -/

structure NodejsFunctionProps where
  entry : String
  handler : Option String
  runtime : Option Runtime
  modulesToIgnore : Option (List String)
  awsSdkConnectionReuse : Option Bool
deriving DecidableEq

/-- The slice of the descriptor handed to the `lambda.Function` super call
that this spec reasons about: runtime, code asset directory, handler string. -/
structure FunctionSuperProps where
  runtime : Runtime
  codeAssetDir : String
  handler : String
deriving DecidableEq

/-- The super call of the webpack revisions (lines 294-299 and 529-534):
`handler: main.$\x7bhandler\x7d` with `handler = props.handler ?? "handler"`. -/
def webpackSuperProps (props : NodejsFunctionProps) (runtime : Runtime) (outputDir : String) :
    FunctionSuperProps :=
  { runtime := runtime
    codeAssetDir := outputDir
    handler := "main." ++ props.handler.getD "handler" }

/-- The super call of the rollup variant (function.ts lines 129-148):
`handler: index.$\x7bhandler\x7d`. -/
def rollupSuperProps (props : NodejsFunctionProps) (runtime : Runtime) (outputDir : String) :
    FunctionSuperProps :=
  { runtime := runtime
    codeAssetDir := outputDir
    handler := "index." ++ props.handler.getD "handler" }

/-! ## Rollup configuration (function.ts lines 94-120)

The generated rollup config preserves the input module tree
(`preserveModules: true`), so the entry file keeps its own relative path in
the output directory. -/

def rollupConfigHead (entry outputDir : String) : String :=
  "import \x7b nodeResolve \x7d from \"@rollup/plugin-node-resolve\";\n"
    ++ "    import commonjs from \"@rollup/plugin-commonjs\";\n"
    ++ "    import json from \"@rollup/plugin-json\";\n"
    ++ "    import \x7b builtinModules \x7d from \"module\";\n"
    ++ "\n"
    ++ "    export default \x7b\n"
    ++ "      input: \"" ++ entry ++ "\",\n"
    ++ "      output: \x7b\n"
    ++ "        dir: " ++ outputDir ++ ",\n"
    ++ "        format: \"cjs\",\n"

def rollupConfigTail : String :=
  "        exports: \"auto\",\n"
    ++ "        sourcemap: \"inline\",\n"
    ++ "      \x7d,\n"
    ++ "      plugins: [\n"
    ++ "        nodeResolve(\x7b\n"
    ++ "          preferBuiltins: true,\n"
    ++ "        \x7d),\n"
    ++ "        commonjs(),\n"
    ++ "        json(),\n"
    ++ "      ],\n"
    ++ "      external: [\"aws-sdk\", ...builtinModules],\n"
    ++ "    \x7d;\n"
    ++ "    "

def rollupConfiguration (entry outputDir : String) : String :=
  rollupConfigHead entry outputDir
    ++ ("        preserveModules: true,\n" ++ rollupConfigTail)

/-! ## Helper lemmas -/

theorem isAbsolutePath_slash_append (x : String) : isAbsolutePath ("/" ++ x) = true := by
  have h : ("/" ++ x).data = '/' :: x.data := by rw [String.data_append]; rfl
  simp [isAbsolutePath, h]

theorem pathResolve_abs (cwd entry : String) : isAbsolutePath (pathResolve cwd entry) = true :=
  isAbsolutePath_slash_append _

theorem escapeList_count (l : List Char) :
    (escapeList l).count '\\' = 2 * l.count '\\' := by
  induction l with
  | nil => rfl
  | cons c rest ih =>
    by_cases hc : c = '\\'
    · subst hc
      simp [escapeList, List.count_cons, ih]
      ring
    · simp [escapeList, hc, List.count_cons, ih]

theorem jsUnescapeList_escapeList (l : List Char) :
    jsUnescapeList (escapeList l) = l := by
  induction l with
  | nil => rfl
  | cons c rest ih =>
    by_cases hc : c = '\\'
    · subst hc
      simp only [escapeList, if_pos rfl, List.cons_append, List.nil_append]
      simp [jsUnescapeList, jsUnescapeChar, ih]
    · simp only [escapeList, if_neg hc, List.cons_append, List.nil_append]
      cases hrest : escapeList rest with
      | nil =>
        cases rest with
        | nil => rfl
        | cons d ds =>
          exfalso
          by_cases hd : d = '\\' <;> simp [escapeList, hd] at hrest
      | cons e es =>
        rw [jsUnescapeList, if_neg hc, ← hrest, ih]

theorem jsSplitAux_ne_nil (sep : List Char) (fuel : Nat) (l : List Char) :
    jsSplitAux sep fuel l ≠ [] := by
  match fuel, l with
  | _, [] => simp [jsSplitAux]
  | 0, c :: cs => simp [jsSplitAux]
  | Nat.succ n, c :: cs =>
    simp only [jsSplitAux]
    split
    · simp
    · split <;> simp

theorem jsSplit_ne_nil (s sep : String) : jsSplit s sep ≠ [] := by
  simp [jsSplit, jsSplitAux_ne_nil]

/-! ## Claim theorems -/

/-- C1: the claim says the direct-bundling (rollup) variant derives the
handler reference from the entry's relative path without its extension, so
entry events/foo.js with the default handler name would give
events/foo.handler. The code instead hardcodes the module name "index"
(function.ts line 147) while its generated rollup configuration preserves
the original module tree (preserveModules: true), so the emitted handler
reference is index.handler, which does not match the preserved output
layout for that entry. This theorem evaluates the embedded code at that
failing input. -/
theorem claim_C1_rollup_handler_is_index :
    (rollupSuperProps ⟨"events/foo.js", none, none, none, none⟩ NODEJS_12_X "/tmp/out").handler
        = "index.handler"
    ∧ ("index.handler" : String) ≠ "events/foo.handler"
    ∧ (∃ pre post, rollupConfiguration "/proj/events/foo.js" "/tmp/out"
        = pre ++ ("        preserveModules: true,\n" ++ post)) := by
  refine ⟨rfl, by decide, rollupConfigHead "/proj/events/foo.js" "/tmp/out", rollupConfigTail, rfl⟩

/-- C2: an entry path without a recognized source extension fails with the
invalid-extension error (independently of the filesystem, hence before any
other effect); an entry with such an extension is resolved to an absolute
path, returned when it exists; when it does not exist the error names the
resolved absolute path. -/
theorem claim_C2_entry_validation (entry cwd : String) (fsExists : String → Bool) :
    (hasSourceExtension entry = false →
      resolveEntry entry cwd fsExists = Except.error EntryError.invalidExtension)
    ∧ (hasSourceExtension entry = true → fsExists (pathResolve cwd entry) = true →
      resolveEntry entry cwd fsExists = Except.ok (pathResolve cwd entry)
        ∧ isAbsolutePath (pathResolve cwd entry) = true)
    ∧ (hasSourceExtension entry = true → fsExists (pathResolve cwd entry) = false →
      resolveEntry entry cwd fsExists
        = Except.error (EntryError.entryNotFound (pathResolve cwd entry))) := by
  refine ⟨?_, ?_, ?_⟩
  · intro h; simp [resolveEntry, h]
  · intro h hf
    exact ⟨by simp [resolveEntry, h, hf], pathResolve_abs cwd entry⟩
  · intro h hf; simp [resolveEntry, h, hf]

/-- C2 witness: the validation succeeds on a concrete valid entry. -/
theorem claim_C2_entry_validation_witness :
    resolveEntry "events/foo.js" "/proj" (fun _ => true) = Except.ok "/proj/events/foo.js" :=
  ((claim_C2_entry_validation "events/foo.js" "/proj" (fun _ => true)).2.1 (by decide) rfl).1

/-- C3: with no runtime supplied, the selected runtime is NODEJS_12_X
exactly when the integer parse of the first dot-separated segment of the
host version string is at least 12, and NODEJS_10_X otherwise. -/
theorem claim_C3_default_runtime_selection (hostNodeVersion : String) :
    (selectRuntime none hostNodeVersion = NODEJS_12_X
      ↔ ∃ n : Int, nodeMajorVersion hostNodeVersion = some n ∧ 12 ≤ n)
    ∧ (selectRuntime none hostNodeVersion = NODEJS_10_X
      ↔ ¬∃ n : Int, nodeMajorVersion hostNodeVersion = some n ∧ 12 ≤ n) := by
  cases h : nodeMajorVersion hostNodeVersion with
  | none =>
    constructor
    · simp [selectRuntime, defaultRunTime, jsGe, h, NODEJS_10_X, NODEJS_12_X]
    · simp [selectRuntime, defaultRunTime, jsGe, h]
  | some n =>
    by_cases hn : 12 ≤ n
    · constructor
      · simp [selectRuntime, defaultRunTime, jsGe, h, hn]
      · simp [selectRuntime, defaultRunTime, jsGe, h, hn, NODEJS_10_X, NODEJS_12_X]
    · constructor
      · simp [selectRuntime, defaultRunTime, jsGe, h, hn, NODEJS_10_X, NODEJS_12_X]
      · simp [selectRuntime, defaultRunTime, jsGe, h, hn]

/-- C4: in the webpack (transform-pipeline) variants, the handler reference
handed to the deployment descriptor with the default handler name is the
fixed string main.handler, whatever the entry path and other properties. -/
theorem claim_C4_pipeline_handler_ref (entry : String) (runtimeOpt : Option Runtime)
    (mi : Option (List String)) (conn : Option Bool) (runtime : Runtime) (outputDir : String) :
    (webpackSuperProps ⟨entry, none, runtimeOpt, mi, conn⟩ runtime outputDir).handler
      = "main.handler" := rfl

/-- C5: a bundler subprocess result with a non-zero exit status yields the
failure outcome with process exit code 1: the captured output chunks and
the configuration text all appear in the emitted diagnostics, and no
success outcome (descriptor construction) is reached. -/
theorem claim_C5_failure_path (res : SpawnResult) (configText outputDir handlerRef : String)
    (c : Int) (hstatus : res.status = some c) (hc : c ≠ 0) :
    ∃ diagnostics,
      interpretWebpackOutcome res configText outputDir handlerRef
          = BuildOutcome.failure diagnostics 1
        ∧ configText ∈ diagnostics
        ∧ (∀ out ∈ res.output, out ∈ diagnostics)
        ∧ (∀ o h, interpretWebpackOutcome res configText outputDir handlerRef
            ≠ BuildOutcome.success o h) := by
  have hne : res.status ≠ some 0 := by simp [hstatus, hc]
  refine ⟨("webpack had an error when bundling. Return status was " ++ statusText res.status)
      :: spawnErrorText res.error
      :: (res.output ++ ["webpack configuration was:", configText]), ?_, ?_, ?_, ?_⟩
  · simp [interpretWebpackOutcome, hne]
  · simp
  · intro out hout; simp [hout]
  · intro o h; simp [interpretWebpackOutcome, hne]

/-- C5 witness: the failure path at a concrete non-zero exit status. -/
theorem claim_C5_failure_path_witness :
    ∃ diagnostics,
      interpretWebpackOutcome ⟨some 1, ["boom"], none⟩ "CFG" "/tmp/out" "main.handler"
          = BuildOutcome.failure diagnostics 1
        ∧ "CFG" ∈ diagnostics
        ∧ (∀ out ∈ (⟨some 1, ["boom"], none⟩ : SpawnResult).output, out ∈ diagnostics)
        ∧ (∀ o h, interpretWebpackOutcome ⟨some 1, ["boom"], none⟩ "CFG" "/tmp/out" "main.handler"
            ≠ BuildOutcome.success o h) :=
  claim_C5_failure_path ⟨some 1, ["boom"], none⟩ "CFG" "/tmp/out" "main.handler" 1 rfl
    (by decide)

/-- C6: escaping doubles every backslash of the interpolated path (the
escaped text carries exactly twice as many backslashes), and decoding the
escaped text through the configuration grammar's string syntax recovers the
original path exactly. -/
theorem claim_C6_escape_roundtrip (p : String) :
    ((escapePathForNodeJs p).data.count '\\' = 2 * p.data.count '\\')
    ∧ jsUnescape (escapePathForNodeJs p) = p := by
  obtain ⟨l⟩ := p
  refine ⟨escapeList_count l, ?_⟩
  show String.mk (jsUnescapeList (escapeList l)) = String.mk l
  rw [jsUnescapeList_escapeList]

/-- C7: the module locator returns the Strategy A (require.resolve) result
immediately when it succeeds, for every Strategy B function; only when
Strategy A yields nothing is the upward directory search consulted; when
both fail the error message names the module. -/
theorem claim_C7_module_locator (requireResolve : String → Option String)
    (findUpSync : String → String → Option String) (moduleName pluginsPath : String) :
    (∀ p, requireResolve moduleName = some p →
      findModulePath requireResolve findUpSync moduleName pluginsPath = Except.ok p)
    ∧ (requireResolve moduleName = none → ∀ q, findUpSync moduleName pluginsPath = some q →
      findModulePath requireResolve findUpSync moduleName pluginsPath = Except.ok q)
    ∧ (requireResolve moduleName = none → findUpSync moduleName pluginsPath = none →
      findModulePath requireResolve findUpSync moduleName pluginsPath
        = Except.error (moduleNotFoundMessage moduleName))
    ∧ (∃ pre post, moduleNotFoundMessage moduleName = pre ++ (moduleName ++ post)) := by
  refine ⟨?_, ?_, ?_, ?_⟩
  · intro p hp; simp [findModulePath, hp]
  · intro hnone q hq; simp [findModulePath, hnone, hq]
  · intro hnone hq; simp [findModulePath, hnone, hq]
  · exact ⟨"Can\x27t find module named ", " via require.resolve or find-up",
      by rw [moduleNotFoundMessage, String.append_assoc]⟩

/-- C7 witness: Strategy B locates a module after Strategy A fails. -/
theorem claim_C7_module_locator_witness :
    findModulePath (fun _ => none) (fun _ _ => some "/repo/node_modules/webpack")
      "webpack" "/repo/node_modules" = Except.ok "/repo/node_modules/webpack" :=
  (claim_C7_module_locator (fun _ => none) (fun _ _ => some "/repo/node_modules/webpack")
    "webpack" "/repo/node_modules").2.1 rfl "/repo/node_modules/webpack" rfl

/-- C8 counterexample: the runtime name "nodejs" contains no digit at all,
so it has no parseable major-version number after the runtime-family
prefix, yet configuration synthesis does not fail: a configuration is
produced (its target version is the empty string). -/
theorem claim_C8_counterexample :
    ("nodejs".data.any Char.isDigit) = false
    ∧ (webpackConfiguration "/proj/events/foo.js" "/proj" "/lib/NodejsFunction.js" "/tmp/out"
        ⟨"/m/webpack", "/m/babel-loader", "/m/preset-env", "/m/transform-runtime",
          "/m/source-map-support", "/m/noop2", "/m/terser", "/m/ts-loader"⟩
        "nodejs" none).isSome = true := ⟨by decide, rfl⟩

/-- C8 amended: synthesis aborts with no configuration exactly when the
runtime name has no second split segment around "nodejs" (the name lacks
the runtime-family prefix entirely; the abort is an incidental undefined
access, not a dedicated error); whenever a target segment is extracted a
configuration is produced, and the name "nodejs" (prefix present, no
numeric segment) extracts the empty target segment. -/
theorem claim_C8_amended (e c f o : String) (pp : PluginsPaths) (runtimeName : String)
    (mi : Option (List String)) :
    (runtimeTargetSegment runtimeName = none →
      webpackConfiguration e c f o pp runtimeName mi = none)
    ∧ (∀ t, runtimeTargetSegment runtimeName = some t →
      webpackConfiguration e c f o pp runtimeName mi
        = some (webpackConfigurationText e c f o pp t mi))
    ∧ (runtimeTargetSegment runtimeName = none
        ↔ (jsSplit runtimeName "nodejs").get? 1 = none)
    ∧ runtimeTargetSegment "nodejs" = some "" := by
  refine ⟨?_, ?_, ?_, rfl⟩
  · intro h; simp [webpackConfiguration, h]
  · intro t ht; simp [webpackConfiguration, ht]
  · unfold runtimeTargetSegment
    cases hg : (jsSplit runtimeName "nodejs").get? 1 with
    | none => simp
    | some seg =>
      simp only
      cases hl : jsSplit seg "." with
      | nil => exact absurd hl (jsSplit_ne_nil seg ".")
      | cons a as => simp [hl]

/-- C8 witness: a runtime name without the family prefix produces no
configuration. -/
theorem claim_C8_amended_witness :
    webpackConfiguration "/p/e.js" "/p" "/f.js" "/t"
        ⟨"w", "b", "pe", "tr", "sm", "n2", "te", "tsl"⟩ "go1.x" none = none :=
  (claim_C8_amended "/p/e.js" "/p" "/f.js" "/t"
    ⟨"w", "b", "pe", "tr", "sm", "n2", "te", "tsl"⟩ "go1.x" none).1 rfl

/-- C9 counterexample: the earlier webpack revision's bundler invocation
(lines 512-514) runs with the caller's project directory as working
directory, which differs from that build's temporary output directory. -/
theorem claim_C9_counterexample :
    (legacyWebpackSpawnCall "/usr/lib/node_modules/webpack-cli/bin/cli.js"
        "/tmp/awsX/webpack.config.js" "/project").cwd = "/project"
    ∧ ("/project" : String) ≠ "/tmp/awsX" := ⟨rfl, by decide⟩

/-- C9 amended: the current webpack revision runs the bundler subprocess
with the fresh temporary output directory as its working directory, while
the earlier revision ran it with the caller's project directory. -/
theorem claim_C9_amended (bin cfg outputDir processCwd : String) :
    (webpackSpawnCall bin cfg outputDir).cwd = outputDir
    ∧ (legacyWebpackSpawnCall bin cfg processCwd).cwd = processCwd := ⟨rfl, rfl⟩

/-- C10: a supplied-but-empty modulesToIgnore list still inserts the
module-replacement rule into the synthesized configuration, its joined
pattern being the empty string, while an absent list omits the rule
entirely. -/
theorem claim_C10_empty_ignore_list (e c f o : String) (pp : PluginsPaths)
    (runtimeName target : String)
    (htarget : runtimeTargetSegment runtimeName = some target) :
    String.intercalate "|" ([] : List String) = ""
    ∧ modulesToIgnoreSection (some []) pp.noop2
        = moduleReplacementRule "" (escapePathForNodeJs pp.noop2)
    ∧ moduleReplacementRule "" (escapePathForNodeJs pp.noop2) ≠ ""
    ∧ (∃ pre post, webpackConfiguration e c f o pp runtimeName (some [])
        = some (pre ++ (moduleReplacementRule "" (escapePathForNodeJs pp.noop2) ++ post)))
    ∧ modulesToIgnoreSection none pp.noop2 = "" := by
  refine ⟨rfl, rfl, ?_, ?_, rfl⟩
  · intro h
    rw [String.ext_iff] at h
    simp [moduleReplacementRule, String.data_append] at h
  · refine ⟨webpackConfigMain e c f o pp target, webpackConfigClose, ?_⟩
    simp only [webpackConfiguration, htarget, webpackConfigurationText, modulesToIgnoreSection]
    rfl

/-- C10 witness: the empty-list behavior at concrete build inputs. -/
theorem claim_C10_empty_ignore_list_witness :
    String.intercalate "|" ([] : List String) = ""
    ∧ modulesToIgnoreSection (some []) "/m/noop2"
        = moduleReplacementRule "" (escapePathForNodeJs "/m/noop2")
    ∧ moduleReplacementRule "" (escapePathForNodeJs "/m/noop2") ≠ ""
    ∧ (∃ pre post, webpackConfiguration "/p/e.js" "/p" "/f.js" "/t"
        ⟨"w", "b", "pe", "tr", "sm", "/m/noop2", "te", "tsl"⟩ "nodejs12.x" (some [])
        = some (pre ++ (moduleReplacementRule "" (escapePathForNodeJs "/m/noop2") ++ post)))
    ∧ modulesToIgnoreSection none "/m/noop2" = "" :=
  claim_C10_empty_ignore_list "/p/e.js" "/p" "/f.js" "/t"
    ⟨"w", "b", "pe", "tr", "sm", "/m/noop2", "te", "tsl"⟩ "nodejs12.x" "12" rfl

end AwsLambdaNodejsWebpack
